import Mathlib

/-!
Shallow embedding of `src/jupyterhub/handlers.py` (HTTP handlers of the hub
server) together with the parts of its data model that the handlers touch.

The repository ships only `handlers.py`; the modules it imports
(`orm.py`, `utils.py`, `spawner.py`) are not under `src/`, so the entities
they provide (ORM rows, `url_path_join`, the spawner capability, token
generation) are modelled from the spec where needed and each such
definition is marked `Modelled from the spec:` in its doc comment.
Everything else is translated line by line from `handlers.py`.

The SQLAlchemy session is modelled as an explicit record store `Db`
holding the committed rows; `query(...).filter(...).first()` becomes
`List.find?`.  Cookie reads/writes of the HTTP layer are explicit
arguments/results.  Random token values produced by the ORM's
`new_cookie_token` / `new_api_token` (not under `src/`) are passed in as
parameters; the spec guarantees they are globally unique, which appears
as freshness hypotheses where it matters.
-/

namespace JH

/-- Modelled from the spec: an `orm.Server` row (`orm.py` is not under
`src/`).  Fields are the ones `handlers.py` reads or writes:
`ip`/`port` (captured from the spawner), `base_url`, `cookie_name`,
`cookie_secret` (set at construction, lines 139-145), and the opaque
spawner `state` persisted at line 162 (`none` until stored). -/
structure Server where
  ip : String := ""
  port : Nat := 0
  base_url : String := ""
  cookie_name : String := ""
  cookie_secret : String := ""
  state : Option String := none
  deriving Repr, DecidableEq

/-- Modelled from the spec: the backend URL used as the proxy `target`
(`target=user.server.url`, line 129); the spec's scenario gives it as
`http://<ip>:<port>`. -/
def Server.url (s : Server) : String :=
  "http://" ++ s.ip ++ ":" ++ toString s.port

/-- Modelled from the spec: an `orm.User` row — identity `name` plus its
1:1 `Server` (created together, lines 139-145). -/
structure User where
  name : String
  server : Server
  deriving Repr, DecidableEq

/-- Modelled from the spec: an `orm.CookieToken` row — opaque token value
bound to exactly one user (`cookie_token.user.name`, line 54, is
`user_name` here). -/
structure CookieToken where
  token : String
  user_name : String
  deriving Repr, DecidableEq

/-- Modelled from the spec: an `orm.APIToken` row — opaque token value
bound to exactly one user. -/
structure APIToken where
  token : String
  user_name : String
  deriving Repr, DecidableEq

/-- Modelled from the spec: the singleton `orm.Proxy` row — API base URL
(`proxy.api_server.url`, line 125) and shared `auth_token` (line 132). -/
structure Proxy where
  api_url : String := ""
  auth_token : String := ""
  deriving Repr, DecidableEq

/-- The committed record store (the SQLAlchemy session's database).
`db.add(row); db.commit()` becomes appending the row. -/
structure Db where
  users : List User := []
  cookie_tokens : List CookieToken := []
  api_tokens : List APIToken := []
  deriving Repr, DecidableEq

/-- `self.db.query(orm.CookieToken).filter(orm.CookieToken.token==token).first()`
(line 52). -/
def Db.queryCookieToken (db : Db) (t : String) : Option CookieToken :=
  db.cookie_tokens.find? (fun ct => ct.token == t)

/-- `self.db.query(orm.User).filter(orm.User.name == username).first()`
(line 209). -/
def Db.queryUserByName (db : Db) (n : String) : Option User :=
  db.users.find? (fun u => u.name == n)

/-- `self.db.query(orm.APIToken).filter(orm.APIToken.token == token).first()`
(line 238). -/
def Db.queryAPIToken (db : Db) (t : String) : Option APIToken :=
  db.api_tokens.find? (fun at_tok => at_tok.token == t)

/-- The hub's own server record plus its base path
(`self.hub.server.*`, `self.hub.base_url`). -/
structure Hub where
  server : Server
  base_url : String := "/"
  deriving Repr, DecidableEq

/-- The handler settings the modelled handlers read: the hub, the hub
application's `base_url` (line 36, default `/`), the singleton proxy row
and `settings['login_url']`. -/
structure Settings where
  hub : Hub
  base_url : String := "/"
  proxy : Proxy := {}
  login_url : String := "/login"
  deriving Repr, DecidableEq

/-- A `Set-Cookie` issued by `self.set_cookie(name, value, path=...)`. -/
structure SetCookie where
  name : String
  value : String
  path : String
  deriving Repr, DecidableEq

/-- `BaseHandler.get_current_user` (lines 46-57): look the hub cookie's
value up among `CookieToken` rows; return the bound user's name, or
`none` on a missing cookie or unknown token (in which case the code
clears the stale cookie — a client-side effect only; the db is
untouched).  The `settings['get_current_user']` override of line 47 is
not configured and not modelled. -/
def get_current_user (db : Db) (cookie : Option String) : Option String :=
  match cookie with
  | none => none
  | some token =>
    match db.queryCookieToken token with
    | some cookie_token => some cookie_token.user_name
    | none => none

/-- `LoginHandler.set_login_cookies` (lines 168-188): persist a fresh
cookie token `t1` and set it on the user's server path, then persist a
second fresh cookie token `t2` and set it on the hub's path.  The token
values themselves come from `orm.User.new_cookie_token` (not under
`src/`; the spec says they are random and globally unique), so they are
parameters here.  Returns the store after both commits and the two
cookies set. -/
def set_login_cookies (db : Db) (hub : Hub) (user : User) (t1 t2 : String) :
    Db × List SetCookie :=
  let db1 : Db :=
    { db with cookie_tokens := db.cookie_tokens ++ [{ token := t1, user_name := user.name }] }
  let c1 : SetCookie :=
    { name := user.server.cookie_name, value := t1, path := user.server.base_url }
  let db2 : Db :=
    { db1 with cookie_tokens := db1.cookie_tokens ++ [{ token := t2, user_name := user.name }] }
  let c2 : SetCookie :=
    { name := hub.server.cookie_name, value := t2, path := hub.server.base_url }
  (db2, [c1, c2])

/-- Modelled from the spec: `utils.url_path_join` (`utils.py` is not under
`src/`); the spec derives joined paths as `{piece}/{piece}/...`
(for example `{hubBaseURL}/user/{name}`). -/
def url_path_join : List String → String
  | [] => ""
  | [p] => p
  | p :: ps => p ++ "/" ++ url_path_join ps

/-- The `orm.User` value constructed by `LoginHandler.spawn_single_user`
(lines 139-145): `cookie_name` is `'%s-%s' % (hub.server.cookie_name, name)`,
`cookie_secret` is the hub's, `base_url` is
`url_path_join(self.base_url, 'user', name)`; `ip`/`port`/`state` are not
set at construction. -/
def make_user (hub : Hub) (base_url : String) (name : String) : User :=
  { name := name,
    server :=
      { cookie_name := hub.server.cookie_name ++ "-" ++ name,
        cookie_secret := hub.server.cookie_secret,
        base_url := url_path_join [base_url, "user", name] } }

/-- Modelled from the spec: the SpawnerPort capability (`spawner.py` is
not under `src/`).  `start` is the outcome of `Spawner.start()`:
`some (ip, port)` when the backend started and reported its address,
`none` when `start` raised (`SpawnFailure`); `state` is what
`Spawner.get_state()` returns afterwards. -/
structure SpawnerOutcome where
  start : Option (String × Nat)
  state : String
  deriving Repr, DecidableEq

/-- Observable effects of `LoginHandler.notify_proxy` (lines 120-135), in
program order: the registration POST (line 123), the readiness poll
`wait_for_server(ip, port)` (line 134), and `r.raise_for_status()`
(line 135) carrying the proxy's response status. -/
inductive ProxyEvent where
  | postRoute (url : String) (target : String) (username : String) (authHeader : String)
  | waitForServer (ip : String) (port : Nat)
  | raiseForStatus (status : Nat)
  deriving Repr, DecidableEq

/-- `LoginHandler.notify_proxy` (lines 120-135) as its trace of effects:
it first POSTs the route `{proxy.api_url}/{server.base_url}` with body
`target=server.url, user=name` and the proxy auth header, then polls the
backend at `ip:port` until it accepts connections, then checks the
proxy's response status (raising on non-2xx).  `proxyStatus` is the
status the external proxy returned. -/
def notify_proxy (proxy : Proxy) (user : User) (proxyStatus : Nat) : List ProxyEvent :=
  [ ProxyEvent.postRoute (url_path_join [proxy.api_url, user.server.base_url])
      user.server.url user.name ("token " ++ proxy.auth_token),
    ProxyEvent.waitForServer user.server.ip user.server.port,
    ProxyEvent.raiseForStatus proxyStatus ]

/-- Result of `LoginHandler.spawn_single_user`: the store after its
commits, the user on success (`none` when `Spawner.start` raised and the
exception propagated), and the trace of the `notify_proxy` coroutine it
fires WITHOUT yielding at line 165 (fire-and-forget: its outcome cannot
reach the caller). -/
structure SpawnResult where
  db : Db
  user : Option User
  bg_events : List ProxyEvent
  deriving Repr, DecidableEq

/-- `LoginHandler.spawn_single_user` (lines 137-166): construct and commit
the `User`+`Server` row (146-147), issue and commit an `APIToken`
(149-151; the random value `apiTok` comes from `orm.User.new_api_token`,
not under `src/`), then `yield spawner.start()` (159).  If `start`
raises, the exception propagates with both commits already durable and
`Server.state` never stored.  On success the spawner's address and state
are written to the row and committed (161-163), `notify_proxy` is fired
un-awaited (165), and the user is returned (166). -/
def spawn_single_user (st : Settings) (db : Db) (name : String) (apiTok : String)
    (sp : SpawnerOutcome) (proxyStatus : Nat) : SpawnResult :=
  let user := make_user st.hub st.base_url name
  let db1 : Db := { db with users := db.users ++ [user] }
  let db2 : Db := { db1 with api_tokens := db1.api_tokens ++ [{ token := apiTok, user_name := name }] }
  match sp.start with
  | none => { db := db2, user := none, bg_events := [] }
  | some (ip, port) =>
    let user' : User :=
      { user with server := { user.server with ip := ip, port := port, state := some sp.state } }
    let db3 : Db := { db2 with users := db.users ++ [user'] }
    { db := db3, user := some user', bg_events := notify_proxy st.proxy user' proxyStatus }

/-- The handler's response as seen by the client. -/
inductive Response where
  /-- `self.redirect(url)`. -/
  | redirect (url : String)
  /-- `LoginHandler._render` (lines 106-111): the login form with an
  optional message (`some e` stands for the dict `message={'error': e}`)
  and the pre-filled username and `next` argument. -/
  | renderLogin (messageError : Option String) (username : String) (next_url : String)
  /-- an uncaught exception escaped the handler (HTTP 500). -/
  | serverError
  deriving Repr, DecidableEq

/-- Result of `LoginHandler.post`. -/
structure LoginResult where
  db : Db
  response : Response
  cookies : List SetCookie
  bg_events : List ProxyEvent
  deriving Repr, DecidableEq

/-- `LoginHandler.post` (lines 199-220).  `authorized` is the verdict of
`self.authenticate(data)` (the authenticator is an external capability;
with none configured every attempt fails).  On success: look the user up
by name, spawn via `spawn_single_user` when absent, set both login
cookies, redirect to `next` or `/user/{username}/` (the `or` of line 213
takes the default when `next` is empty).  On failure: re-render the
login form with the error message and the submitted username; the store
is untouched. -/
def login_post (st : Settings) (db : Db) (username : String) (next_url : String)
    (authorized : Bool) (t1 t2 apiTok : String) (sp : SpawnerOutcome)
    (proxyStatus : Nat) : LoginResult :=
  if authorized then
    let next' := if next_url = "" then "/user/" ++ username ++ "/" else next_url
    match db.queryUserByName username with
    | some user =>
      let r := set_login_cookies db st.hub user t1 t2
      { db := r.1, response := Response.redirect next', cookies := r.2, bg_events := [] }
    | none =>
      let s := spawn_single_user st db username apiTok sp proxyStatus
      match s.user with
      | some user =>
        let r := set_login_cookies s.db st.hub user t1 t2
        { db := r.1, response := Response.redirect next', cookies := r.2, bg_events := s.bg_events }
      | none =>
        { db := s.db, response := Response.serverError, cookies := [], bg_events := [] }
  else
    { db := db,
      response := Response.renderLogin (some "Invalid username or password") username next_url,
      cookies := [], bg_events := [] }

/-- `UserHandler.get` (lines 84-94): `@web.authenticated` redirects an
anonymous request to the login url.  When the logged-in user matches the
path, line 88 evaluates `self.spawn_single_user(user)` — but
`spawn_single_user` is defined on `LoginHandler` only (line 138), and
neither `UserHandler` nor `BaseHandler` nor tornado's `RequestHandler`
defines it, so the attribute lookup raises `AttributeError` before any
database write and the handler fails with HTTP 500; the redirect of
line 89 is never reached.  When the logged-in user does not match the
path, line 91 calls `clear_login_cookie`, which touches no rows and
itself raises `AttributeError` at line 65 (`self.cookie_name`), so the
redirect of line 92 is never reached either.  On every path the store is
returned unchanged. -/
def user_handler_get (st : Settings) (db : Db) (cookie : Option String)
    (pathUser : String) : Db × Response :=
  match get_current_user db cookie with
  | none => (db, Response.redirect st.login_url)
  | some current =>
    if current = pathUser then
      (db, Response.serverError)
    else
      (db, Response.serverError)

/-- Result of `BaseHandler.clear_login_cookie` / `LogoutHandler.get`:
the store afterwards, the cookies cleared on the client, and the
exception (if any) the handler raised. -/
structure LogoutResult where
  db : Db
  cleared : List SetCookie
  error : Option String
  deriving Repr, DecidableEq

/-- `BaseHandler.clear_login_cookie` (lines 59-65): find the current
user, clear the cookie of that user's server (line 64; the lookup at
line 62 writes `filter(name=username)` where `filter_by` was meant — it
is modelled as the intended by-name lookup, `orm.py` being absent), then
clear the hub cookie (line 65).  Line 65 reads `self.cookie_name`, an
attribute neither `BaseHandler` nor tornado's `RequestHandler` defines,
so the call raises `AttributeError` there; the hub cookie is never
cleared.  No database row is touched anywhere in the function. -/
def clear_login_cookie (_st : Settings) (db : Db) (cookie : Option String) : LogoutResult :=
  let cleared : List SetCookie :=
    match get_current_user db cookie with
    | none => []
    | some username =>
      match db.queryUserByName username with
      | none => []
      | some user =>
        [{ name := user.server.cookie_name, value := "", path := user.server.base_url }]
  { db := db, cleared := cleared, error := some "AttributeError: cookie_name" }

/-- `LogoutHandler.get` (lines 97-101): calls `clear_login_cookie` and
then writes "logged out" (unreachable past the raise at line 65). -/
def logout_get (st : Settings) (db : Db) (cookie : Option String) : LogoutResult :=
  clear_login_cookie st db cookie

/-- Whether a character matches Python's `\s` on `str` patterns (used by
`auth_header_pat = re.compile(r'^token\s+([^\s]+)$')`, line 228):
ASCII whitespace plus the file separators and Unicode space characters. -/
def isPySpace (c : Char) : Bool :=
  (0x09 ≤ c.val && c.val ≤ 0x0d) || c.val == 0x1c || c.val == 0x1d ||
  c.val == 0x1e || c.val == 0x1f || c.val == 0x20 || c.val == 0x85 ||
  c.val == 0xa0 || c.val == 0x1680 || (0x2000 ≤ c.val && c.val ≤ 0x200a) ||
  c.val == 0x2028 || c.val == 0x2029 || c.val == 0x202f || c.val == 0x205f ||
  c.val == 0x3000

/-- Drop a literal prefix from a character list; `none` when it does not
start with that prefix. -/
def dropLiteral : List Char → List Char → Option (List Char)
  | [], cs => some cs
  | _ :: _, [] => none
  | p :: ps, c :: cs => if c = p then dropLiteral ps cs else none

/-- `auth_header_pat.match(auth_header)` (lines 228 and 234) with the
matched group: the pattern `^token\s+([^\s]+)$` requires the literal
`token`, one or more whitespace characters, then the group of one or
more non-whitespace characters, then the end of the string (Python's `$`
also matches just before a single trailing newline).  Both repetitions
are over complementary character classes, so greedy scanning without
backtracking is equivalent to the regex. -/
def auth_header_pat_match (s : String) : Option String :=
  match dropLiteral "token".data s.data with
  | none => none
  | some rest =>
    let ws := rest.takeWhile isPySpace
    let rest2 := rest.dropWhile isPySpace
    if ws = [] then none
    else
      let tok := rest2.takeWhile (fun c => !(isPySpace c))
      let rest3 := rest2.dropWhile (fun c => !(isPySpace c))
      if tok = [] then none
      else if rest3 = [] || rest3 = ['\n'] then some (String.mk tok)
      else none

/-- Outcome of the `token_authorized` guard. -/
inductive GuardResult where
  /-- `raise web.HTTPError(403)`: the wrapped method never runs. -/
  | forbidden
  /-- the wrapped method runs, with the verified token. -/
  | run (token : String)
  deriving Repr, DecidableEq

/-- `token_authorized` (lines 230-244): read the `Authorization` header
(defaulting to the empty string when absent, line 233), match it against
`auth_header_pat`; on no match raise 403 without touching the token
table; otherwise look the captured token up among `APIToken` rows,
raising 403 when unknown, and run the wrapped method when found.  The
second component records whether a token-table lookup was performed. -/
def token_authorized (db : Db) (authHeader : String) : GuardResult × Bool :=
  match auth_header_pat_match authHeader with
  | none => (GuardResult.forbidden, false)
  | some token =>
    match db.queryAPIToken token with
    | none => (GuardResult.forbidden, true)
    | some _ => (GuardResult.run token, true)

/-!
Cooperative-interleaving model of two concurrent `LoginHandler.post`
requests for the same (new) username.  Tornado runs handlers on a
single-threaded event loop, so a `gen.coroutine` executes atomically
between its `yield` points.  `post` suspends at
`yield self.authenticate(data)` (line 207) and, on the spawn path,
inside `yield self.spawn_single_user(username)` at
`yield spawner.start()` (line 159); everything between two suspensions
— in particular the user lookup of line 209 together with the
User+APIToken commits of lines 146-151 — is one atomic segment.  A
request is therefore a sequence of segments:
phase 0 (arrived, authenticator pending) → phase 1 (authenticated; next
segment checks the store and either commits the user and starts the
spawn, suspending, or — when the row already exists — sets the login
cookies and finishes) → phase 2 (spawn in flight; next segment stores
the state and sets the cookies) → phase 3 (done).  A schedule is the
order in which the event loop resumes the two requests. -/

/-- Observable events of the two-login interleaving model; `r` identifies
the request (`false`/`true`). -/
inductive SpawnEv where
  | userCreated (r : Bool)
  | spawnStarted (r : Bool)
  | spawnCompleted (r : Bool)
  | cookiesSet (r : Bool)
  deriving Repr, DecidableEq

/-- State of the two-request system: committed user rows (for the one
contested name), each request's phase, and the event trace. -/
structure TwoLoginSys where
  users : List String
  phF : Nat
  phT : Nat
  trace : List SpawnEv
  deriving Repr, DecidableEq

/-- Phase of request `r`. -/
def TwoLoginSys.phase (s : TwoLoginSys) (r : Bool) : Nat :=
  if r then s.phT else s.phF

/-- Set the phase of request `r`. -/
def TwoLoginSys.setPhase (s : TwoLoginSys) (r : Bool) (v : Nat) : TwoLoginSys :=
  if r then { s with phT := v } else { s with phF := v }

/-- Run the next atomic segment of request `r` (see the module comment
above): phase 0 finishes authentication; phase 1 performs the line-209
lookup and either takes the existing-user path (cookies, done) or
commits the user row, starts the spawn and suspends; phase 2 completes
the spawn and sets the cookies. -/
def stepReq (name : String) (s : TwoLoginSys) (r : Bool) : TwoLoginSys :=
  match s.phase r with
  | 0 => s.setPhase r 1
  | 1 =>
    if s.users.contains name then
      { s.setPhase r 3 with trace := s.trace ++ [SpawnEv.cookiesSet r] }
    else
      { s.setPhase r 2 with
        users := s.users ++ [name],
        trace := s.trace ++ [SpawnEv.userCreated r, SpawnEv.spawnStarted r] }
  | 2 =>
    { s.setPhase r 3 with
      trace := s.trace ++ [SpawnEv.spawnCompleted r, SpawnEv.cookiesSet r] }
  | _ => s

/-- Run a schedule: the event loop resumes the scheduled request's next
segment at each step, starting from an empty store with both requests
just arrived. -/
def runTwoLogins (name : String) (sched : List Bool) : TwoLoginSys :=
  sched.foldl (stepReq name) { users := [], phF := 0, phT := 0, trace := [] }

/-- Count the trace events satisfying `p`. -/
def countEv (p : SpawnEv → Bool) (tr : List SpawnEv) : Nat :=
  (tr.filter p).length

/-- Recognize `spawnStarted` events (either request). -/
def isSpawnStarted : SpawnEv → Bool
  | SpawnEv.spawnStarted _ => true
  | _ => false

/-- Recognize `userCreated` events (either request). -/
def isUserCreated : SpawnEv → Bool
  | SpawnEv.userCreated _ => true
  | _ => false

/-- Recognize the registration POST among `notify_proxy`'s effects. -/
def isPostEvent : ProxyEvent → Bool
  | ProxyEvent.postRoute _ _ _ _ => true
  | _ => false

/-- Recognize the readiness poll among `notify_proxy`'s effects. -/
def isWaitEvent : ProxyEvent → Bool
  | ProxyEvent.waitForServer _ _ => true
  | _ => false

/-- Recognize the response-status check among `notify_proxy`'s effects. -/
def isRaiseEvent : ProxyEvent → Bool
  | ProxyEvent.raiseForStatus _ => true
  | _ => false

/-- Invariant of the two-login system: the committed rows for `name` are
exactly one per `userCreated` event, at most one user row is ever
created, spawns and user creations coincide, and a request past phase 1
has seen the row committed. -/
def TwoInv (name : String) (s : TwoLoginSys) : Prop :=
  s.users = List.replicate (countEv isUserCreated s.trace) name
  ∧ countEv isUserCreated s.trace ≤ 1
  ∧ countEv isSpawnStarted s.trace = countEv isUserCreated s.trace
  ∧ (s.phF ≥ 2 → s.users ≠ [])
  ∧ (s.phT ≥ 2 → s.users ≠ [])

/-!  Concrete fixtures used by closed (witness / counterexample)
theorems. -/

/-- A concrete hub: cookie name `jupyter-hub-token`, base path `/`. -/
def hub0 : Hub :=
  { server :=
      { ip := "127.0.0.1", port := 8081, base_url := "/",
        cookie_name := "jupyter-hub-token", cookie_secret := "secret" },
    base_url := "/" }

/-- Concrete handler settings around `hub0`. -/
def st0 : Settings :=
  { hub := hub0, base_url := "/",
    proxy := { api_url := "http://localhost:8001", auth_token := "proxy-secret" },
    login_url := "/login" }

/-- A store holding the committed user `alice` (as created by a past
login) together with her hub cookie token `t-alice`. -/
def db_alice : Db :=
  { users := [make_user hub0 "/" "alice"],
    cookie_tokens := [{ token := "t-alice", user_name := "alice" }],
    api_tokens := [] }

/-!  The handler set as a transition system on the record store, for
stating reachable-state invariants.  An operation is one inbound request
handled by the modelled handlers; `applyOp` is its effect on the store. -/

/-- One request to the handler set: a login POST (`LoginHandler.post`),
a user-page GET (`UserHandler.get`), or a logout (`LogoutHandler.get`). -/
inductive HubOp where
  | login (username next_url : String) (authorized : Bool) (t1 t2 apiTok : String)
      (sp : SpawnerOutcome) (proxyStatus : Nat)
  | userPage (cookie : Option String) (pathUser : String)
  | logout (cookie : Option String)
  deriving Repr

/-- Effect of one request on the record store. -/
def applyOp (st : Settings) (db : Db) : HubOp → Db
  | HubOp.login username next_url authorized t1 t2 apiTok sp proxyStatus =>
    (login_post st db username next_url authorized t1 t2 apiTok sp proxyStatus).db
  | HubOp.userPage cookie pathUser => (user_handler_get st db cookie pathUser).1
  | HubOp.logout cookie => (logout_get st db cookie).db

/-- The store reached by a sequence of requests from the empty store. -/
def runOps (st : Settings) (ops : List HubOp) : Db :=
  ops.foldl (applyOp st) { users := [], cookie_tokens := [], api_tokens := [] }

/-- At most one `User` row per name: the names of the user rows are
pairwise distinct. -/
def usersNodup (db : Db) : Prop :=
  (db.users.map User.name).Nodup

/-!  Helper lemmas. -/

/-- Appending to a fixed string on the left is injective. -/
theorem string_append_left_cancel (s t u : String) (h : s ++ t = s ++ u) : t = u := by
  have h2 := congrArg String.data h
  simp only [String.data_append] at h2
  have h3 := List.append_cancel_left h2
  cases t; cases u; simp_all

/-- Searching an appended list skips a prefix with no match. -/
theorem find?_append_none {α : Type} (p : α → Bool) {l1 : List α} (l2 : List α)
    (h : l1.find? p = none) : (l1 ++ l2).find? p = l2.find? p := by
  simp [List.find?_append, h]

/-- Event counts add over appended traces. -/
theorem countEv_append (p : SpawnEv → Bool) (l1 l2 : List SpawnEv) :
    countEv p (l1 ++ l2) = countEv p l1 + countEv p l2 := by
  simp [countEv, List.filter_append]

/-- One user creation in a spawn-start segment. -/
theorem countEv_uc_pair (r : Bool) :
    countEv isUserCreated [SpawnEv.userCreated r, SpawnEv.spawnStarted r] = 1 := rfl

/-- One spawn start in a spawn-start segment. -/
theorem countEv_ss_pair (r : Bool) :
    countEv isSpawnStarted [SpawnEv.userCreated r, SpawnEv.spawnStarted r] = 1 := rfl

/-- No user creation in a cookie-setting segment. -/
theorem countEv_uc_cs (r : Bool) : countEv isUserCreated [SpawnEv.cookiesSet r] = 0 := rfl

/-- No spawn start in a cookie-setting segment. -/
theorem countEv_ss_cs (r : Bool) : countEv isSpawnStarted [SpawnEv.cookiesSet r] = 0 := rfl

/-- No user creation in a spawn-completion segment. -/
theorem countEv_uc_done (r : Bool) :
    countEv isUserCreated [SpawnEv.spawnCompleted r, SpawnEv.cookiesSet r] = 0 := rfl

/-- No spawn start in a spawn-completion segment. -/
theorem countEv_ss_done (r : Bool) :
    countEv isSpawnStarted [SpawnEv.spawnCompleted r, SpawnEv.cookiesSet r] = 0 := rfl

/-- A replicated list contains its element exactly when it is nonempty. -/
theorem replicate_contains_self (k : Nat) (name : String) :
    (List.replicate k name).contains name = true ↔ k ≠ 0 := by
  simp [List.elem_iff, List.mem_replicate]

/-!  Claim theorems. -/

/-- Claim C1 (confirmed): cookie-token round-trip.  Issuing the login
cookie tokens for user `u` (as `set_login_cookies` does: persist the
token rows bound to `u` and commit) and then verifying the hub cookie's
token value through `get_current_user`'s lookup returns `u`'s name.  The
hypotheses state the freshness of the issued token values, which the
spec guarantees (token values are globally unique and random; the
generator lives in `orm.py`, outside `src/`). -/
theorem cookie_token_roundtrip (db : Db) (hub : Hub) (u : User) (t1 t2 : String)
    (hfresh : ∀ ct ∈ db.cookie_tokens, ct.token ≠ t2) (hne : t1 ≠ t2) :
    get_current_user (set_login_cookies db hub u t1 t2).1 (some t2) = some u.name := by
  have h1 : db.cookie_tokens.find? (fun ct => ct.token == t2) = none := by
    rw [List.find?_eq_none]
    intro a ha
    simpa using hfresh a ha
  unfold get_current_user set_login_cookies Db.queryCookieToken
  simp only [List.append_assoc]
  rw [find?_append_none _ _ h1]
  have h4 : (t1 == t2) = false := by simpa using hne
  simp [List.find?, h4]

/-- Claim C1 witness: the round-trip at a concrete store, user and fresh
tokens. -/
theorem cookie_token_roundtrip_witness :
    get_current_user
      (set_login_cookies db_alice hub0 (make_user hub0 "/" "alice") "tok1" "tok2").1
      (some "tok2") = some "alice" :=
  cookie_token_roundtrip db_alice hub0 (make_user hub0 "/" "alice") "tok1" "tok2"
    (by decide) (by decide)

/-- Claim C2 counterexample: the claim that `notify_proxy` polls the
backend for readiness before the registration POST is false — in the
operation's effect trace the POST (index 0) precedes the readiness poll
(index 1), so the route is registered with the proxy before the backend
has reported ready. -/
theorem readiness_before_registration_cex :
    ¬ ((notify_proxy st0.proxy (make_user hub0 "/" "alice") 200).findIdx isWaitEvent
        < (notify_proxy st0.proxy (make_user hub0 "/" "alice") 200).findIdx isPostEvent) := by
  decide

/-- Claim C2 (corrected): `notify_proxy`'s effects are, in order, the
registration POST, then the readiness poll of the backend's `ip:port`,
then the check of the proxy's response status.  Readiness is therefore
observed before registration is treated as successful
(`raise_for_status`), but after the POST itself. -/
theorem notify_proxy_order (proxy : Proxy) (user : User) (status : Nat) :
    notify_proxy proxy user status =
      [ ProxyEvent.postRoute (url_path_join [proxy.api_url, user.server.base_url])
          user.server.url user.name ("token " ++ proxy.auth_token),
        ProxyEvent.waitForServer user.server.ip user.server.port,
        ProxyEvent.raiseForStatus status ]
    ∧ (notify_proxy proxy user status).findIdx isPostEvent
        < (notify_proxy proxy user status).findIdx isWaitEvent
    ∧ (notify_proxy proxy user status).findIdx isWaitEvent
        < (notify_proxy proxy user status).findIdx isRaiseEvent := by
  refine ⟨rfl, ?_, ?_⟩ <;> simp [notify_proxy, List.findIdx, List.findIdx.go, isPostEvent,
    isWaitEvent, isRaiseEvent]

/-- Appending a fresh element keeps a list of names duplicate-free. -/
theorem nodup_append_singleton {l : List String} {a : String}
    (h : l.Nodup) (ha : a ∉ l) : (l ++ [a]).Nodup := by
  simp [List.nodup_append, h, ha]

/-- Helper for C3: `UserHandler.get` never changes the store — every
branch either redirects without touching rows or raises before any
write. -/
theorem user_handler_get_db (st : Settings) (db : Db) (cookie : Option String)
    (pathUser : String) : (user_handler_get st db cookie pathUser).1 = db := by
  cases hg : get_current_user db cookie <;> simp [user_handler_get, hg]

/-- Helper for C3: when a `User` row with the requested name already
exists, `LoginHandler.post` adds no user row — `spawn_single_user` is
reached only on the `user is None` branch of line 210. -/
theorem login_post_users_of_found (st : Settings) (db : Db)
    (username next_url : String) (authorized : Bool) (t1 t2 apiTok : String)
    (sp : SpawnerOutcome) (pstatus : Nat) (u : User)
    (hq : db.queryUserByName username = some u) :
    (login_post st db username next_url authorized t1 t2 apiTok sp pstatus).db.users =
      db.users := by
  cases authorized <;> simp [login_post, hq, set_login_cookies]

/-- Helper for C3: a login POST preserves per-name uniqueness of user
rows — it appends a row only when the line-209 lookup found none. -/
theorem usersNodup_login (st : Settings) (db : Db)
    (username next_url : String) (authorized : Bool) (t1 t2 apiTok : String)
    (sp : SpawnerOutcome) (pstatus : Nat) (h : usersNodup db) :
    usersNodup (login_post st db username next_url authorized t1 t2 apiTok sp pstatus).db := by
  cases authorized with
  | false => exact h
  | true =>
    cases hq : db.queryUserByName username with
    | some u =>
      unfold usersNodup
      rw [login_post_users_of_found st db username next_url true t1 t2 apiTok sp pstatus u hq]
      exact h
    | none =>
      have habs : username ∉ db.users.map User.name := by
        rw [Db.queryUserByName, List.find?_eq_none] at hq
        intro hmem
        obtain ⟨u, hu, hname⟩ := List.mem_map.mp hmem
        exact (hq u hu) (by simp [hname])
      cases hsp : sp.start with
      | none =>
        have he : (login_post st db username next_url true t1 t2 apiTok sp pstatus).db.users =
            db.users ++ [make_user st.hub st.base_url username] := by
          simp [login_post, hq, spawn_single_user, hsp]
        unfold usersNodup
        rw [he, List.map_append]
        exact nodup_append_singleton h (by simpa [make_user] using habs)
      | some ipport2 =>
        have he : (login_post st db username next_url true t1 t2 apiTok sp pstatus).db.users =
            db.users ++ [{ make_user st.hub st.base_url username with
              server := { (make_user st.hub st.base_url username).server with
                ip := ipport2.1, port := ipport2.2, state := some sp.state } }] := by
          simp [login_post, hq, spawn_single_user, hsp, set_login_cookies]
        unfold usersNodup
        rw [he, List.map_append]
        exact nodup_append_singleton h (by simpa [make_user] using habs)

/-- Helper for C3: every operation of the handler set preserves per-name
uniqueness. -/
theorem usersNodup_applyOp (st : Settings) (db : Db) (op : HubOp)
    (h : usersNodup db) : usersNodup (applyOp st db op) := by
  cases op with
  | login username next_url authorized t1 t2 apiTok sp pstatus =>
    exact usersNodup_login st db username next_url authorized t1 t2 apiTok sp pstatus h
  | userPage cookie pathUser =>
    have e : applyOp st db (HubOp.userPage cookie pathUser) =
        (user_handler_get st db cookie pathUser).1 := rfl
    rw [e, user_handler_get_db]
    exact h
  | logout cookie => exact h

/-- Helper for C3: uniqueness is preserved along any request sequence. -/
theorem usersNodup_foldl (st : Settings) (ops : List HubOp) (db : Db)
    (h : usersNodup db) : usersNodup (ops.foldl (applyOp st) db) := by
  induction ops generalizing db with
  | nil => exact h
  | cons op rest ih => exact ih _ (usersNodup_applyOp st db op h)

/-- Claim C3 (confirmed): username uniqueness is an invariant.  In every
state reachable from the empty store by login POSTs, user-page GETs and
logouts, the user rows carry pairwise-distinct names; a login POST for a
name that already has a `User` row adds no row (`spawn_single_user` is
reached only on the `user is None` branch of lines 209-211); and a
user-page GET never changes the store (its `self.spawn_single_user`
call raises `AttributeError` — the method exists on `LoginHandler`
only — before any write). -/
theorem username_uniqueness_invariant :
    (∀ st ops, usersNodup (runOps st ops))
    ∧ (∀ st db username next_url authorized t1 t2 apiTok sp pstatus u,
        Db.queryUserByName db username = some u →
        (login_post st db username next_url authorized t1 t2 apiTok sp pstatus).db.users =
          db.users)
    ∧ (∀ st db cookie pathUser, (user_handler_get st db cookie pathUser).1 = db) := by
  refine ⟨?_, ?_, ?_⟩
  · intro st ops
    exact usersNodup_foldl st ops _ (by simp [usersNodup])
  · intro st db username next_url authorized t1 t2 apiTok sp pstatus u hq
    exact login_post_users_of_found st db username next_url authorized t1 t2 apiTok sp pstatus u hq
  · intro st db cookie pathUser
    exact user_handler_get_db st db cookie pathUser

/-- Claim C3 witness: a concrete sequence — login of alice, user-page
GET for alice while logged in, and a repeated login of alice — still
yields pairwise-distinct user names; and a login POST against the store
already holding alice leaves its user rows unchanged. -/
theorem username_uniqueness_invariant_witness :
    usersNodup (runOps st0
      [ HubOp.login "alice" "" true "c1" "c2" "a1"
          { start := some ("127.0.0.1", 9001), state := "s" } 200,
        HubOp.userPage (some "x") "alice",
        HubOp.login "alice" "" true "d1" "d2" "a2"
          { start := some ("127.0.0.1", 9002), state := "s2" } 200 ])
    ∧ (login_post st0 db_alice "alice" "" true "e1" "e2" "a3"
        { start := some ("1.2.3.4", 1), state := "t" } 200).db.users = db_alice.users :=
  ⟨username_uniqueness_invariant.1 st0
      [ HubOp.login "alice" "" true "c1" "c2" "a1"
          { start := some ("127.0.0.1", 9001), state := "s" } 200,
        HubOp.userPage (some "x") "alice",
        HubOp.login "alice" "" true "d1" "d2" "a2"
          { start := some ("127.0.0.1", 9002), state := "s2" } 200 ],
   username_uniqueness_invariant.2.1 st0 db_alice "alice" "" true "e1" "e2" "a3"
      { start := some ("1.2.3.4", 1), state := "t" } 200
      (make_user hub0 "/" "alice") (by decide)⟩

/-- Claim C4 counterexample: the claim that after a spawn failure no
User/Server record remains committed without `Server.state` is false —
with an empty store and a spawner whose `start` raises, the login leaves
a committed user row whose `server.state` is `none` (the cookie part of
the claim does hold: no cookie is set). -/
theorem spawn_failure_cex :
    ((login_post st0 { } "alice" "" true "c1" "c2" "a1"
        { start := none, state := "" } 200).db.users.any
      (fun u => u.server.state == none)) = true
    ∧ (login_post st0 { } "alice" "" true "c1" "c2" "a1"
        { start := none, state := "" } 200).cookies = [] := by decide

/-- Claim C4 (corrected): if `Spawner.start` raises during a login for a
new user, no login cookie is set and the handler fails with an error,
but the already-committed `User`/`Server` row (with `Server.state` still
unset) and the `APIToken` row remain in the store. -/
theorem spawn_failure_state (st : Settings) (db : Db)
    (username next_url t1 t2 apiTok stt : String) (pstatus : Nat)
    (habs : db.queryUserByName username = none) :
    login_post st db username next_url true t1 t2 apiTok
        { start := none, state := stt } pstatus =
      { db := { db with
          users := db.users ++ [make_user st.hub st.base_url username],
          api_tokens := db.api_tokens ++ [{ token := apiTok, user_name := username }] },
        response := Response.serverError, cookies := [], bg_events := [] }
    ∧ (make_user st.hub st.base_url username).server.state = none := by
  constructor
  · simp [login_post, habs, spawn_single_user]
  · rfl

/-- Claim C4 witness: the amended statement at a concrete empty store. -/
theorem spawn_failure_state_witness :
    login_post st0 { } "alice" "" true "c1" "c2" "a1" { start := none, state := "" } 200 =
      { db := { users := [make_user st0.hub st0.base_url "alice"],
                cookie_tokens := [],
                api_tokens := [{ token := "a1", user_name := "alice" }] },
        response := Response.serverError, cookies := [], bg_events := [] }
    ∧ (make_user st0.hub st0.base_url "alice").server.state = none :=
  spawn_failure_state st0 { } "alice" "" "c1" "c2" "a1" "" 200 (by decide)

/-- Claim C5 (confirmed): the token guard.  When the Authorization header
does not match the pattern (missing, malformed, wrong scheme), the guard
fails with 403 and performs no token-table lookup; when the header
matches but the token is unknown, it fails with 403 after the lookup;
and the wrapped method runs only when the captured token matches a
stored `APIToken` row. -/
theorem token_guard (db : Db) (h : String) :
    (auth_header_pat_match h = none → token_authorized db h = (GuardResult.forbidden, false))
    ∧ (∀ t, auth_header_pat_match h = some t → db.queryAPIToken t = none →
        token_authorized db h = (GuardResult.forbidden, true))
    ∧ (∀ g b, token_authorized db h = (g, b) → g ≠ GuardResult.forbidden →
        ∃ t row, auth_header_pat_match h = some t ∧ db.queryAPIToken t = some row
          ∧ g = GuardResult.run t ∧ b = true) := by
  refine ⟨?_, ?_, ?_⟩
  · intro hm
    simp [token_authorized, hm]
  · intro t hm hq
    simp [token_authorized, hm, hq]
  · intro g b hg hfb
    unfold token_authorized at hg
    cases hma : auth_header_pat_match h with
    | none =>
      rw [hma] at hg
      simp at hg
      exact absurd hg.1.symm hfb
    | some t =>
      rw [hma] at hg
      cases hq : db.queryAPIToken t with
      | none =>
        simp [hq] at hg
        exact absurd hg.1.symm hfb
      | some row =>
        simp [hq] at hg
        exact ⟨t, row, rfl, hq, hg.1.symm, hg.2⟩

/-- Claim C5 witness: a malformed header is rejected without a lookup,
and an unknown token is rejected after one. -/
theorem token_guard_witness :
    token_authorized { } "Bearer abc" = (GuardResult.forbidden, false)
    ∧ token_authorized { api_tokens := [{ token := "sek", user_name := "alice" }] }
        "token zzz" = (GuardResult.forbidden, true) :=
  ⟨(token_guard { } "Bearer abc").1 (by decide),
   (token_guard { api_tokens := [{ token := "sek", user_name := "alice" }] } "token zzz").2.1
     "zzz" (by decide) (by decide)⟩

/-- Claim C6 (confirmed): on a failed authentication the login POST
creates no user, issues no token, sets no cookie (the store is returned
unchanged) and re-renders the login form with
`message={'error': 'Invalid username or password'}` and the submitted
username pre-filled. -/
theorem failed_login_renders_form (st : Settings) (db : Db)
    (username next_url t1 t2 apiTok : String) (sp : SpawnerOutcome) (pstatus : Nat) :
    login_post st db username next_url false t1 t2 apiTok sp pstatus =
      { db := db,
        response := Response.renderLogin (some "Invalid username or password") username next_url,
        cookies := [], bg_events := [] } := rfl

/-- Claim C7 (confirmed): the Server created for a new user `n` has
`cookie_name = hubCookieName ++ "-" ++ n`, the hub's `cookie_secret`,
and `base_url = url_path_join [hubBaseURL, "user", n]`; and for distinct
names the derived base URLs are distinct. -/
theorem derived_server_fields (hub : Hub) (base n : String) :
    ((make_user hub base n).server.cookie_name = hub.server.cookie_name ++ "-" ++ n
      ∧ (make_user hub base n).server.cookie_secret = hub.server.cookie_secret
      ∧ (make_user hub base n).server.base_url = url_path_join [base, "user", n])
    ∧ ∀ n2, n ≠ n2 →
        (make_user hub base n).server.base_url ≠ (make_user hub base n2).server.base_url := by
  refine ⟨⟨rfl, rfl, rfl⟩, ?_⟩
  intro n2 hne heq
  apply hne
  simp only [make_user, url_path_join] at heq
  have e1 := string_append_left_cancel (base ++ "/") _ _ heq
  exact string_append_left_cancel ("user" ++ "/") _ _ e1

/-- Claim C7 witness: distinct names give distinct base URLs at a
concrete hub. -/
theorem derived_server_fields_witness :
    (make_user hub0 "/" "alice").server.base_url ≠ (make_user hub0 "/" "bob").server.base_url :=
  (derived_server_fields hub0 "/" "alice").2 "bob" (by decide)

/-- Claim C8 (confirmed): a non-2xx proxy-registration status does not
affect the login outcome — `notify_proxy` is fired without being
awaited, so for any status (in particular any non-2xx one) the login
still sets both cookie tokens and redirects to `next` or
`/user/{username}/`. -/
theorem proxy_failure_tolerated (st : Settings) (db : Db)
    (username next_url t1 t2 apiTok ip stt : String) (port status : Nat)
    (habs : db.queryUserByName username = none)
    (_hnon2xx : ¬ (200 ≤ status ∧ status < 300)) :
    (login_post st db username next_url true t1 t2 apiTok
        { start := some (ip, port), state := stt } status).response =
      Response.redirect (if next_url = "" then "/user/" ++ username ++ "/" else next_url)
    ∧ (login_post st db username next_url true t1 t2 apiTok
        { start := some (ip, port), state := stt } status).cookies =
      [ { name := st.hub.server.cookie_name ++ "-" ++ username, value := t1,
          path := url_path_join [st.base_url, "user", username] },
        { name := st.hub.server.cookie_name, value := t2,
          path := st.hub.server.base_url } ] := by
  constructor
  · simp [login_post, habs, spawn_single_user, set_login_cookies]
  · simp [login_post, habs, spawn_single_user, set_login_cookies, make_user]

/-- Claim C8 witness: a 500 from the proxy still yields the redirect and
both cookies. -/
theorem proxy_failure_tolerated_witness :
    (login_post st0 { } "alice" "" true "c1" "c2" "a1"
        { start := some ("10.0.0.5", 9000), state := "s" } 500).response =
      Response.redirect "/user/alice/"
    ∧ (login_post st0 { } "alice" "" true "c1" "c2" "a1"
        { start := some ("10.0.0.5", 9000), state := "s" } 500).cookies =
      [ { name := "jupyter-hub-token-alice", value := "c1", path := "//user/alice" },
        { name := "jupyter-hub-token", value := "c2", path := "/" } ] :=
  proxy_failure_tolerated st0 { } "alice" "" "c1" "c2" "a1" "10.0.0.5" "s" 9000 500
    (by decide) (by decide)

/-- Claim C9 counterexample: the claim that logout deletes the
cookie-token row so the token no longer verifies is false — after
`LogoutHandler.get` for the session of `alice`, the store is unchanged
and the token value `t-alice` still verifies to `alice`. -/
theorem logout_keeps_token_valid_cex :
    (logout_get st0 db_alice (some "t-alice")).db = db_alice
    ∧ get_current_user (logout_get st0 db_alice (some "t-alice")).db (some "t-alice") =
        some "alice" := by decide

/-- Claim C9 (corrected): logout clears login cookies client-side only;
it deletes no `CookieToken` row, so any token value verifies after
logout exactly as it did before. -/
theorem logout_deletes_no_tokens (st : Settings) (db : Db) (cookie : Option String) :
    (logout_get st db cookie).db = db
    ∧ ∀ t, get_current_user (logout_get st db cookie).db (some t) =
        get_current_user db (some t) :=
  ⟨rfl, fun _ => rfl⟩

/-- Claim C10 step lemma: `TwoInv` is preserved by each atomic segment of
either request. -/
theorem two_inv_step (name : String) (s : TwoLoginSys) (r : Bool)
    (h : TwoInv name s) : TwoInv name (stepReq name s r) := by
  obtain ⟨hu, hle, hss, hF, hT⟩ := h
  obtain ⟨users, phF, phT, trace⟩ := s
  dsimp only at hu hle hss hF hT
  cases r
  case false =>
    rcases phF with _ | _ | _ | n
    · -- phase 0: only the phase changes
      have e : stepReq name { users := users, phF := 0, phT := phT, trace := trace } false =
          { users := users, phF := 1, phT := phT, trace := trace } := rfl
      rw [e]
      exact ⟨hu, hle, hss, fun h2 => absurd h2 (by simp), hT⟩
    · -- phase 1: lookup, then either existing-user path or spawn path
      have e : stepReq name { users := users, phF := 1, phT := phT, trace := trace } false =
          if users.contains name = true then
            { users := users, phF := 3, phT := phT,
              trace := trace ++ [SpawnEv.cookiesSet false] }
          else
            { users := users ++ [name], phF := 2, phT := phT,
              trace := trace ++ [SpawnEv.userCreated false, SpawnEv.spawnStarted false] } := rfl
      rw [e]
      by_cases hc : users.contains name = true
      · rw [if_pos hc]
        have hne : users ≠ [] := by
          intro hnil
          rw [hnil] at hc
          simp [List.contains] at hc
        refine ⟨?_, ?_, ?_, fun _ => hne, fun h2 => hT h2⟩
        · simpa [countEv_append, countEv_uc_cs] using hu
        · simpa [countEv_append, countEv_uc_cs] using hle
        · simpa [countEv_append, countEv_uc_cs, countEv_ss_cs] using hss
      · rw [if_neg hc]
        have hk0 : countEv isUserCreated trace = 0 := by
          by_contra hk
          rw [hu] at hc
          exact hc ((replicate_contains_self _ name).mpr hk)
        have husers : users = [] := by
          rw [hu, hk0]
          rfl
        refine ⟨?_, ?_, ?_, fun _ => by simp [husers], fun _ => by simp [husers]⟩
        · simp [husers, countEv_append, countEv_uc_pair, hk0, List.replicate]
        · simp [countEv_append, countEv_uc_pair, hk0]
        · simp [countEv_append, countEv_uc_pair, countEv_ss_pair, hss]
    · -- phase 2: spawn completes, cookies set
      have e : stepReq name { users := users, phF := 2, phT := phT, trace := trace } false =
          { users := users, phF := 3, phT := phT,
            trace := trace ++ [SpawnEv.spawnCompleted false, SpawnEv.cookiesSet false] } := rfl
      rw [e]
      refine ⟨?_, ?_, ?_, fun _ => hF (le_refl 2), fun h2 => hT h2⟩
      · simpa [countEv_append, countEv_uc_done] using hu
      · simpa [countEv_append, countEv_uc_done] using hle
      · simpa [countEv_append, countEv_uc_done, countEv_ss_done] using hss
    · -- phase ≥ 3: done, no step
      have e : stepReq name { users := users, phF := n + 3, phT := phT, trace := trace } false =
          { users := users, phF := n + 3, phT := phT, trace := trace } := rfl
      rw [e]
      exact ⟨hu, hle, hss, hF, hT⟩
  case true =>
    rcases phT with _ | _ | _ | n
    · have e : stepReq name { users := users, phF := phF, phT := 0, trace := trace } true =
          { users := users, phF := phF, phT := 1, trace := trace } := rfl
      rw [e]
      exact ⟨hu, hle, hss, hF, fun h2 => absurd h2 (by simp)⟩
    · have e : stepReq name { users := users, phF := phF, phT := 1, trace := trace } true =
          if users.contains name = true then
            { users := users, phF := phF, phT := 3,
              trace := trace ++ [SpawnEv.cookiesSet true] }
          else
            { users := users ++ [name], phF := phF, phT := 2,
              trace := trace ++ [SpawnEv.userCreated true, SpawnEv.spawnStarted true] } := rfl
      rw [e]
      by_cases hc : users.contains name = true
      · rw [if_pos hc]
        have hne : users ≠ [] := by
          intro hnil
          rw [hnil] at hc
          simp [List.contains] at hc
        refine ⟨?_, ?_, ?_, fun h2 => hF h2, fun _ => hne⟩
        · simpa [countEv_append, countEv_uc_cs] using hu
        · simpa [countEv_append, countEv_uc_cs] using hle
        · simpa [countEv_append, countEv_uc_cs, countEv_ss_cs] using hss
      · rw [if_neg hc]
        have hk0 : countEv isUserCreated trace = 0 := by
          by_contra hk
          rw [hu] at hc
          exact hc ((replicate_contains_self _ name).mpr hk)
        have husers : users = [] := by
          rw [hu, hk0]
          rfl
        refine ⟨?_, ?_, ?_, fun _ => by simp [husers], fun _ => by simp [husers]⟩
        · simp [husers, countEv_append, countEv_uc_pair, hk0, List.replicate]
        · simp [countEv_append, countEv_uc_pair, hk0]
        · simp [countEv_append, countEv_uc_pair, countEv_ss_pair, hss]
    · have e : stepReq name { users := users, phF := phF, phT := 2, trace := trace } true =
          { users := users, phF := phF, phT := 3,
            trace := trace ++ [SpawnEv.spawnCompleted true, SpawnEv.cookiesSet true] } := rfl
      rw [e]
      refine ⟨?_, ?_, ?_, fun h2 => hF h2, fun _ => hT (le_refl 2)⟩
      · simpa [countEv_append, countEv_uc_done] using hu
      · simpa [countEv_append, countEv_uc_done] using hle
      · simpa [countEv_append, countEv_uc_done, countEv_ss_done] using hss
    · have e : stepReq name { users := users, phF := phF, phT := n + 3, trace := trace } true =
          { users := users, phF := phF, phT := n + 3, trace := trace } := rfl
      rw [e]
      exact ⟨hu, hle, hss, hF, hT⟩

/-- Claim C10 run lemma: `TwoInv` is preserved by any schedule. -/
theorem two_inv_run (name : String) (sched : List Bool) (s : TwoLoginSys)
    (h : TwoInv name s) : TwoInv name (sched.foldl (stepReq name) s) := by
  induction sched generalizing s with
  | nil => exact h
  | cons r rest ih => exact ih _ (two_inv_step name s r h)

/-- Claim C10 (corrected): under every cooperative schedule of two login
POSTs for the same new username, at most one backend spawn is started
and at most one user row is committed, and when both requests complete
exactly one spawn happened and exactly one user row exists.  (The
mechanism is the committed row observed at the line-209 lookup, not an
await of the in-flight spawn — see the counterexample.) -/
theorem single_spawn_per_username (name : String) (sched : List Bool) :
    countEv isSpawnStarted (runTwoLogins name sched).trace ≤ 1
    ∧ (runTwoLogins name sched).users.length ≤ 1
    ∧ ((runTwoLogins name sched).phF = 3 → (runTwoLogins name sched).phT = 3 →
        countEv isSpawnStarted (runTwoLogins name sched).trace = 1
        ∧ (runTwoLogins name sched).users = [name]) := by
  have hinit : TwoInv name { users := [], phF := 0, phT := 0, trace := [] } :=
    ⟨rfl, by decide, rfl, fun h2 => absurd h2 (by decide), fun h2 => absurd h2 (by decide)⟩
  have h : TwoInv name (runTwoLogins name sched) := two_inv_run name sched _ hinit
  obtain ⟨hu, hle, hss, hF, hT⟩ := h
  refine ⟨?_, ?_, ?_⟩
  · rw [hss]
    exact hle
  · rw [hu]
    simpa using hle
  · intro hf ht
    have hne : (runTwoLogins name sched).users ≠ [] := hF (by omega)
    have hk : countEv isUserCreated (runTwoLogins name sched).trace ≠ 0 := by
      intro hk0
      apply hne
      rw [hu, hk0]
      rfl
    have hk1 : countEv isUserCreated (runTwoLogins name sched).trace = 1 := by omega
    constructor
    · rw [hss, hk1]
    · rw [hu, hk1]
      rfl

/-- Claim C10 witness: a schedule where both requests complete gives
exactly one spawn and one user row. -/
theorem single_spawn_per_username_witness :
    countEv isSpawnStarted (runTwoLogins "u" [false, false, true, true, false]).trace = 1
    ∧ (runTwoLogins "u" [false, false, true, true, false]).users = ["u"] :=
  (single_spawn_per_username "u" [false, false, true, true, false]).2.2
    (by decide) (by decide)

/-- Claim C10 counterexample: the claim that the second login awaits the
in-flight spawn is false — in the exhibited schedule the second request
finishes (sets its cookies, index 2 of the trace) before the first
request's spawn completes (index 3). -/
theorem concurrent_login_no_await_cex :
    (runTwoLogins "u" [false, false, true, true, false]).trace =
      [SpawnEv.userCreated false, SpawnEv.spawnStarted false, SpawnEv.cookiesSet true,
        SpawnEv.spawnCompleted false, SpawnEv.cookiesSet false]
    ∧ (runTwoLogins "u" [false, false, true, true, false]).trace.findIdx
        (fun e => decide (e = SpawnEv.cookiesSet true))
      < (runTwoLogins "u" [false, false, true, true, false]).trace.findIdx
        (fun e => decide (e = SpawnEv.spawnCompleted false)) := by decide

end JH
